import Mathlib

/-!
Verification of the build-order validator and timing evaluator of
`src/aoe2/aoe2_build_order.py` (RTS_Overlay).

The Python functions operate on JSON-decoded values (dicts, lists, strings,
ints, booleans, None).  We embed those values as the inductive type `PyVal`
and give the Python primitives used by the source (`d[key]`, `x in c`,
`len`, iteration, `isinstance`, `str`) their Python semantics, with failures
modelled in an `Except PyErr` monad.  Values are modelled as trees, so
object aliasing inside a document is not represented.

`check_valid_aoe2_build_order`, `get_aoe2_build_order_step`,
`get_aoe2_build_order_template` and `evaluate_aoe2_build_order_timing` are
translated from `src/aoe2/aoe2_build_order.py` line by line.  The helpers
`is_valid_resource`, `build_order_time_to_str` (common/build_order_tools.py)
and the table `aoe2_civilization_icon` (aoe2/aoe2_civ_icon.py) are imported
by the source but their files are not part of the sources; they are modelled
from the specification and marked as such below.
-/

/-- A JSON-decoded Python value, as handled by the build-order code. -/
inductive PyVal where
  | int : Int → PyVal
  | bool : Bool → PyVal
  | str : String → PyVal
  | none : PyVal
  | list : List PyVal → PyVal
  | dict : List (String × PyVal) → PyVal
deriving Repr

/-- Python exceptions that the embedded operations can raise. -/
inductive PyErr where
  | keyError : String → PyErr
  | typeError : String → PyErr
  | assertionError : PyErr
deriving Repr, DecidableEq

/-- Python `str(err)` for the exceptions of `PyErr`: `str(KeyError(k))` is
the `repr` of the key, `str(TypeError(m))` is the message, and
`str(AssertionError())` is empty. -/
def pyErrStr : PyErr → String
  | .keyError k => "\x27" ++ k ++ "\x27"
  | .typeError m => m
  | .assertionError => ""

/-- First binding of `key` in an association list (Python dicts have unique
keys, so the first binding is the only one). -/
def lookupFirst : List (String × PyVal) → String → Option PyVal
  | [], _ => Option.none
  | (k, v) :: rest, key => if k = key then some v else lookupFirst rest key

/-- The Python type name of a value, as used in error messages. -/
def pyTypeName : PyVal → String
  | .int _ => "int"
  | .bool _ => "bool"
  | .str _ => "str"
  | .none => "NoneType"
  | .list _ => "list"
  | .dict _ => "dict"

/-- Python subscription `v[key]` with a string key: dict lookup (raising
`KeyError` when absent), `TypeError` on every other value shape. -/
def pyGetItem (v : PyVal) (key : String) : Except PyErr PyVal :=
  match v with
  | .dict kvs =>
    match lookupFirst kvs key with
    | some x => .ok x
    | Option.none => .error (.keyError key)
  | .list _ => .error (.typeError "list indices must be integers or slices, not str")
  | .str _ => .error (.typeError "string indices must be integers")
  | v => .error (.typeError ("\x27" ++ pyTypeName v ++ "\x27 object is not subscriptable"))

mutual

/-- Python `==` between JSON values: numeric equality identifies `bool` with
`int` (`True == 1`), otherwise values of different shapes are unequal. -/
def pyEqb : PyVal → PyVal → Bool
  | .int a, .int b => a == b
  | .int a, .bool b => a == (if b then (1 : Int) else 0)
  | .bool a, .int b => (if a then (1 : Int) else 0) == b
  | .bool a, .bool b => a == b
  | .str a, .str b => a == b
  | .none, .none => true
  | .list as, .list bs => pyEqbList as bs
  | .dict as, .dict bs => pyEqbDict as bs
  | _, _ => false

def pyEqbList : List PyVal → List PyVal → Bool
  | [], [] => true
  | a :: as, b :: bs => pyEqb a b && pyEqbList as bs
  | _, _ => false

def pyEqbDict : List (String × PyVal) → List (String × PyVal) → Bool
  | [], [] => true
  | (k, v) :: as, (k2, v2) :: bs => k == k2 && pyEqb v v2 && pyEqbDict as bs
  | _, _ => false

end

/-- Mutable containers (lists, dicts) are unhashable in Python. -/
def pyUnhashable : PyVal → Bool
  | .list _ => true
  | .dict _ => true
  | _ => false

/-- Substring test on the character lists of two strings. -/
def charsContain (hay pat : List Char) : Bool :=
  (List.range (hay.length + 1)).any fun i => pat.isPrefixOf (hay.drop i)

/-- Python membership `x in container`: key lookup for dicts (raising
`TypeError` for unhashable `x`), `==`-search for lists, substring test for
strings (where `x` must itself be a string), `TypeError` otherwise. -/
def pyContains (container x : PyVal) : Except PyErr Bool :=
  match container with
  | .dict kvs =>
    if pyUnhashable x then
      .error (.typeError ("unhashable type: \x27" ++ pyTypeName x ++ "\x27"))
    else
      .ok (match x with
           | .str s => (lookupFirst kvs s).isSome
           | _ => false)
  | .list ys => .ok (ys.any fun y => pyEqb x y)
  | .str s =>
    match x with
    | .str t => .ok (charsContain s.data t.data)
    | x => .error (.typeError ("\x27in <string>\x27 requires string as left operand, not "
                               ++ pyTypeName x))
  | c => .error (.typeError ("argument of type \x27" ++ pyTypeName c ++ "\x27 is not iterable"))

/-- Python `len`. -/
def pyLen : PyVal → Except PyErr Nat
  | .list xs => .ok xs.length
  | .str s => .ok s.length
  | .dict kvs => .ok kvs.length
  | v => .error (.typeError ("object of type \x27" ++ pyTypeName v ++ "\x27 has no len()"))

/-- Python iteration: lists yield their elements, strings their one-character
substrings, dicts their keys; other values are not iterable. -/
def pyIter : PyVal → Except PyErr (List PyVal)
  | .list xs => .ok xs
  | .str s => .ok (s.data.map fun c => .str (String.mk [c]))
  | .dict kvs => .ok (kvs.map fun kv => .str kv.1)
  | v => .error (.typeError ("\x27" ++ pyTypeName v ++ "\x27 object is not iterable"))

/-- Python `isinstance(v, int)`; `bool` is a subclass of `int`. -/
def isinstance_int : PyVal → Bool
  | .int _ => true
  | .bool _ => true
  | _ => false

/-- Python `isinstance(v, str)`. -/
def isinstance_str : PyVal → Bool
  | .str _ => true
  | _ => false

/-- Python `isinstance(v, list)`. -/
def pyIsList : PyVal → Bool
  | .list _ => true
  | _ => false

/-- Python `int(v)` on values for which `isinstance(v, int)` holds (the
source only applies it under that guard); other shapes map to 0. -/
def pyIntOf : PyVal → Int
  | .int n => n
  | .bool b => if b then 1 else 0
  | _ => 0

mutual

/-- Python `repr`, restricted to JSON values (strings are always rendered
with single quotes). -/
def pyRepr : PyVal → String
  | .int n => toString n
  | .bool b => if b then "True" else "False"
  | .str s => "\x27" ++ s ++ "\x27"
  | .none => "None"
  | .list xs => "[" ++ pyReprList xs ++ "]"
  | .dict kvs => "\x7b" ++ pyReprDict kvs ++ "\x7d"

def pyReprList : List PyVal → String
  | [] => ""
  | [x] => pyRepr x
  | x :: y :: rest => pyRepr x ++ ", " ++ pyReprList (y :: rest)

def pyReprDict : List (String × PyVal) → String
  | [] => ""
  | [(k, v)] => "\x27" ++ k ++ "\x27: " ++ pyRepr v
  | (k, v) :: y :: rest => "\x27" ++ k ++ "\x27: " ++ pyRepr v ++ ", " ++ pyReprDict (y :: rest)

end

/-- Python `str` (as used by f-string interpolation): the identity on
strings, `repr` on the other JSON values. -/
def pyStr : PyVal → String
  | .str s => s
  | v => pyRepr v

/-- Modelled from the spec: the static faction table `aoe2_civilization_icon`
of `aoe2/aoe2_civ_icon.py`, whose file is not among the sources.  The
validator only tests key membership, so the table is modelled by its key
list: recognized AoE2 faction names, including the `Generic` entry that the
default template uses (the spec expects the template's output to satisfy the
validator by construction). -/
def aoe2_civilization_icon : List String :=
  ["Generic", "Aztecs", "Berbers", "Britons", "Bulgarians", "Burgundians",
   "Burmese", "Byzantines", "Celts", "Chinese", "Cumans", "Ethiopians",
   "Franks", "Goths", "Huns", "Incas", "Indians", "Italians", "Japanese",
   "Khmer", "Koreans", "Lithuanians", "Magyars", "Malay", "Malians",
   "Mayans", "Mongols", "Persians", "Poles", "Portuguese", "Saracens",
   "Sicilians", "Slavs", "Spanish", "Tatars", "Teutons", "Turks",
   "Vietnamese", "Vikings"]

/-- Modelled from the spec: `is_valid_resource` of
`common/build_order_tools.py`, whose file is not among the sources.  The
spec: a resource value is valid if it is an integer ≥ 0, or the sentinel −1
("not tracked"), or a structured breakdown whose total is derived from
sub-entries (modelled as a mapping with integer sub-entries). -/
def is_valid_resource : PyVal → Bool
  | .int n => (0 ≤ n) || (n == -1)
  | .dict kvs => kvs.all fun kv => match kv.2 with
      | .int _ => true
      | _ => false
  | _ => false

/-- Modelled from the spec: `build_order_time_to_str` of
`common/build_order_tools.py`, whose file is not among the sources.  The
spec: the number of seconds is formatted as a "minutes:seconds" string with
the seconds zero-padded to two digits (Python floor division/modulo). -/
def build_order_time_to_str (t : Int) : String :=
  let m := t.ediv 60
  let s := t.emod 60
  toString m ++ ":" ++ (if s < 10 then "0" ++ toString s else toString s)

/-- Membership of a civilization value in `aoe2_civilization_icon`
(`civilization in aoe2_civilization_icon`): dict-key membership raises
`TypeError` on unhashable values and matches string keys only. -/
def civTableContains (c : PyVal) : Except PyErr Bool :=
  if pyUnhashable c then
    .error (.typeError ("unhashable type: \x27" ++ pyTypeName c ++ "\x27"))
  else
    .ok (match c with
         | .str s => aoe2_civilization_icon.contains s
         | _ => false)

/-- `civilization in ['Any', 'any']` (list membership, Python `==`). -/
def wildcard_ok (c : PyVal) : Bool :=
  pyEqb c (.str "Any") || pyEqb c (.str "any")

/-- Lines 33-35: the loop over a civilization list; the first unknown entry
produces the error message (without the name prefix). -/
def check_civ_list : List PyVal → Except PyErr (Option String)
  | [] => .ok Option.none
  | c :: rest =>
    match civTableContains c with
    | .error e => .error e
    | .ok inTable =>
      if !inTable && !wildcard_ok c then
        .ok (some ("Unknown civilization \x27" ++ pyStr c ++ "\x27 (check spelling)."))
      else check_civ_list rest

/-- Lines 28-38: the check of the `civilization` field's value: a list must
be non-empty and hold only recognized or wildcard entries; a scalar must be
recognized or a wildcard. -/
def check_civ_value (civilization_data : PyVal) : Except PyErr (Option String) :=
  match civilization_data with
  | .list cs =>
    if cs.length = 0 then .ok (some "Valid civilization list is empty.")
    else check_civ_list cs
  | c =>
    match civTableContains c with
    | .error e => .error e
    | .ok inTable =>
      if !inTable && !wildcard_ok c then
        .ok (some ("Unknown civilization \x27" ++ pyStr c ++ "\x27 (check spelling)."))
      else .ok Option.none

/-- Line 65: the age condition of a step,
`(not isinstance(item['age'], int)) or (int(item['age']) > 4)`. -/
def age_check_fail (age : PyVal) : Bool :=
  !isinstance_int age || pyIntOf age > 4

/-- Lines 71-97: the checks on a step's `resources` value.  `.ok (some m)`
is an early `return False` whose message is `m` appended to the step label;
`.error e` is an uncaught exception of the `try` block. -/
def check_resources (resources : PyVal) : Except PyErr (Option String) :=
  match pyContains resources (.str "wood") with
  | .error e => .error e
  | .ok hasWood =>
  if !hasWood then .ok (some " is missing the \x27wood\x27 field in \x27resources\x27.") else
  match pyContains resources (.str "food") with
  | .error e => .error e
  | .ok hasFood =>
  if !hasFood then .ok (some " is missing the \x27food\x27 field in \x27resources\x27.") else
  match pyContains resources (.str "gold") with
  | .error e => .error e
  | .ok hasGold =>
  if !hasGold then .ok (some " is missing the \x27gold\x27 field in \x27resources\x27.") else
  match pyContains resources (.str "stone") with
  | .error e => .error e
  | .ok hasStone =>
  if !hasStone then .ok (some " is missing the \x27stone\x27 field in \x27resources\x27.") else
  match pyGetItem resources "wood" with
  | .error e => .error e
  | .ok wood =>
  if !is_valid_resource wood then
    .ok (some (" has an invalid \x27wood\x27 resource (" ++ pyStr wood ++ ").")) else
  match pyGetItem resources "food" with
  | .error e => .error e
  | .ok food =>
  if !is_valid_resource food then
    .ok (some (" has an invalid \x27food\x27 resource (" ++ pyStr food ++ ").")) else
  match pyGetItem resources "gold" with
  | .error e => .error e
  | .ok gold =>
  if !is_valid_resource gold then
    .ok (some (" has an invalid \x27gold\x27 resource (" ++ pyStr gold ++ ").")) else
  match pyGetItem resources "stone" with
  | .error e => .error e
  | .ok stone =>
  if !is_valid_resource stone then
    .ok (some (" has an invalid \x27stone\x27 resource (" ++ pyStr stone ++ ").")) else
  match pyContains resources (.str "builder") with
  | .error e => .error e
  | .ok hasBuilder =>
  if hasBuilder then
    match pyGetItem resources "builder" with
    | .error e => .error e
    | .ok builder =>
      if !is_valid_resource builder then
        .ok (some " has an invalid \x27builder\x27 resource.")
      else .ok Option.none
  else .ok Option.none

/-- Lines 101-103: the loop over a step's notes; the first note that is not
a string produces the error message. -/
def check_notes : List PyVal → Option String
  | [] => Option.none
  | n :: rest =>
    if !isinstance_str n then
      some (" note \x27" ++ pyStr n ++ "\x27 is not a string.")
    else check_notes rest

/-- Lines 47-103: the checks on one step of the build order.  `.ok (some m)`
is an early `return False` whose message is `m` appended to `Step {id}`;
all four field-presence checks come before any value check, as in the
source. -/
def check_step (item : PyVal) : Except PyErr (Option String) :=
  match pyContains item (.str "villager_count") with
  | .error e => .error e
  | .ok hasVC =>
  if !hasVC then .ok (some " is missing the \x27villager_count\x27 field.") else
  match pyContains item (.str "age") with
  | .error e => .error e
  | .ok hasAge =>
  if !hasAge then .ok (some " is missing the \x27age\x27 field.") else
  match pyContains item (.str "resources") with
  | .error e => .error e
  | .ok hasRes =>
  if !hasRes then .ok (some " is missing the \x27resources\x27 field.") else
  match pyContains item (.str "notes") with
  | .error e => .error e
  | .ok hasNotes =>
  if !hasNotes then .ok (some " is missing the \x27notes\x27 field.") else
  match pyGetItem item "villager_count" with
  | .error e => .error e
  | .ok vc =>
  if !isinstance_int vc then
    .ok (some (" has invalid villager count (" ++ pyStr vc ++ ").")) else
  match pyGetItem item "age" with
  | .error e => .error e
  | .ok age =>
  if age_check_fail age then
    .ok (some (" has invalid age number (" ++ pyStr age ++ ") (max: 4 for Imperial).")) else
  match pyGetItem item "resources" with
  | .error e => .error e
  | .ok resources =>
  match check_resources resources with
  | .error e => .error e
  | .ok (some m) => .ok (some m)
  | .ok Option.none =>
  match pyGetItem item "notes" with
  | .error e => .error e
  | .ok notes =>
  match pyIter notes with
  | .error e => .error e
  | .ok ns => .ok (check_notes ns)

/-- Lines 44-103: the loop over the build-order steps.  `step_id` is the
0-based `enumerate` index and appears as `Step {step_id}` in every message;
after the last step the loop falls through to `return True, ''`. -/
def check_steps (bo_name_str : String) : Nat → List PyVal → Except PyErr (Bool × String)
  | _, [] => .ok (true, "")
  | step_id, item :: rest =>
    match check_step item with
    | .error e => .error e
    | .ok (some m) => .ok (false, bo_name_str ++ "Step " ++ toString step_id ++ m)
    | .ok Option.none => check_steps bo_name_str (step_id + 1) rest

/-- Lines 24-103: the body of the `try` block after `name` is resolved:
fetch `build_order`, check `civilization` when present, reject an empty
build order, then check the steps in order. -/
def check_after_name (data : PyVal) (bo_name_str : String) : Except PyErr (Bool × String) :=
  match pyGetItem data "build_order" with
  | .error e => .error e
  | .ok build_order =>
  match pyContains data (.str "civilization") with
  | .error e => .error e
  | .ok hasCiv =>
  match ((if hasCiv then
            match pyGetItem data "civilization" with
            | .error e => .error e
            | .ok civilization_data => check_civ_value civilization_data
          else .ok Option.none) : Except PyErr (Option String)) with
  | .error e => .error e
  | .ok (some m) => .ok (false, bo_name_str ++ m)
  | .ok Option.none =>
  match pyLen build_order with
  | .error e => .error e
  | .ok n =>
  if n < 1 then .ok (false, bo_name_str ++ "Build order is empty.")
  else
    match pyIter build_order with
    | .error e => .error e
    | .ok items => check_steps bo_name_str 0 items

/-- Lines 18-103: the whole `try` block.  An uncaught exception is paired
with the value `bo_name_str` holds when it is raised: `''` when `data['name']`
itself raises, the computed prefix afterwards. -/
def check_body (data : PyVal) (bo_name_msg : Bool) : Except (String × PyErr) (Bool × String) :=
  match pyGetItem data "name" with
  | .error e => .error ("", e)
  | .ok name =>
    let bo_name_str := if bo_name_msg then pyStr name ++ " | " else ""
    match check_after_name data bo_name_str with
    | .error e => .error (bo_name_str, e)
    | .ok r => .ok r

/-- Lines 5-111: `check_valid_aoe2_build_order`.  The `except KeyError`
handler renders the missing key as Python's `str(KeyError(k))` (the quoted
key); the generic `except Exception` handler renders `str(err)`. -/
def check_valid_aoe2_build_order (data : PyVal) (bo_name_msg : Bool) : Bool × String :=
  match check_body data bo_name_msg with
  | .ok r => r
  | .error (pre, .keyError k) => (false, pre ++ "Wrong JSON key: \x27" ++ k ++ "\x27.")
  | .error (pre, e) => (false, pre ++ pyErrStr e)

/-- `data[key] if (key in data) else dflt`, as in the step template
(`key in data` may raise when the last step is not a mapping). -/
def field_or_default (data : PyVal) (key : String) (dflt : PyVal) : Except PyErr PyVal :=
  match pyContains data (.str key) with
  | .error e => .error e
  | .ok true => pyGetItem data key
  | .ok false => .ok dflt

/-- Lines 128-170: `get_aoe2_build_order_step`.  Without an argument it
returns the default step; with a build order it asserts a non-empty list and
carries `villager_count`, `age` and `resources` over from the last step. -/
def get_aoe2_build_order_step (build_order_data : Option PyVal) : Except PyErr PyVal :=
  match build_order_data with
  | Option.none =>
    .ok (.dict [("villager_count", .int 0),
                ("age", .int 1),
                ("resources", .dict [("wood", .int 0), ("food", .int 0),
                                     ("gold", .int 0), ("stone", .int 0)]),
                ("notes", .list [.str "Note 1.", .str "Note 2."])])
  | some bod =>
    match bod with
    | .list (x :: xs) =>
      let data := (x :: xs).getLast (List.cons_ne_nil x xs)
      match field_or_default data "villager_count" (.int 0) with
      | .error e => .error e
      | .ok vc =>
      match field_or_default data "age" (.int 1) with
      | .error e => .error e
      | .ok age =>
      match field_or_default data "resources"
              (.dict [("wood", .int 0), ("food", .int 0),
                      ("gold", .int 0), ("stone", .int 0)]) with
      | .error e => .error e
      | .ok resources =>
        .ok (.dict [("villager_count", vc),
                    ("age", age),
                    ("resources", resources),
                    ("notes", .list [.str "Note 1.", .str "Note 2."])])
    | _ => .error .assertionError

/-- Lines 173-186: `get_aoe2_build_order_template` (the default-step call
can in fact not fail, so the bind collapses). -/
def get_aoe2_build_order_template : Except PyErr PyVal :=
  match get_aoe2_build_order_step Option.none with
  | .error e => .error e
  | .ok step =>
    .ok (.dict [("name", .str "Build order name"),
                ("civilization", .str "Generic"),
                ("author", .str "Author"),
                ("source", .str "Source"),
                ("build_order", .list [step])])

/-- Replacement of the first binding of `key` (appending when absent), the
visible effect of Python's `d[key] = x` on a dict. -/
def dict_set : List (String × PyVal) → String → PyVal → List (String × PyVal)
  | [], key, x => [(key, x)]
  | (k, v) :: rest, key, x =>
    if k = key then (k, x) :: rest else (k, v) :: dict_set rest key x

/-- `d[key] = x` on a dict value; other shapes are returned unchanged (the
evaluator only reaches this case for dicts). -/
def py_dict_set (v : PyVal) (key : String) (x : PyVal) : PyVal :=
  match v with
  | .dict kvs => .dict (dict_set kvs key x)
  | v => v

/-- Python's item assignment `v[key] = x` with a string key: dict update,
`TypeError` on every other value shape. -/
def py_set_item (v : PyVal) (key : String) (x : PyVal) : Except PyErr PyVal :=
  match v with
  | .dict kvs => .ok (.dict (dict_set kvs key x))
  | .list _ => .error (.typeError "list indices must be integers or slices, not str")
  | .str _ => .error (.typeError "\x27str\x27 object does not support item assignment")
  | v => .error (.typeError ("\x27" ++ pyTypeName v ++ "\x27 object does not support item assignment"))

/-- `villager_time * villager_count + time_offset` (line 207): defined for
the integer values (`bool` included); every other shape raises a `TypeError`
before the assignment happens. -/
def py_time_value (villager_time : Int) (villager_count : PyVal) (time_offset : Int) :
    Except PyErr Int :=
  match villager_count with
  | .int n => .ok (villager_time * n + time_offset)
  | .bool b => .ok (villager_time * (if b then 1 else 0) + time_offset)
  | .str _ => .error (.typeError "can only concatenate str (not \x22int\x22) to str")
  | .list _ => .error (.typeError "can only concatenate list (not \x22int\x22) to list")
  | v => .error (.typeError ("unsupported operand type(s) for *: \x27int\x27 and \x27"
                             ++ pyTypeName v ++ "\x27"))

/-- Lines 205-207: the loop of the timing evaluator, returning the updated
step values. -/
def eval_timing_steps (villager_time time_offset : Int) :
    List PyVal → Except PyErr (List PyVal)
  | [] => .ok []
  | step :: rest =>
    match pyGetItem step "villager_count" with
    | .error e => .error e
    | .ok villager_count =>
    match py_time_value villager_time villager_count time_offset with
    | .error e => .error e
    | .ok t =>
    match py_set_item step "time" (.str (build_order_time_to_str t)) with
    | .error e => .error e
    | .ok step2 =>
    match eval_timing_steps villager_time time_offset rest with
    | .error e => .error e
    | .ok rest2 => .ok (step2 :: rest2)

/-- Lines 189-207: `evaluate_aoe2_build_order_timing`.  The in-place
mutation of the steps is rendered functionally: when `build_order` is a
list, the document is returned with its updated steps; when it is another
iterable, the iterated items are fresh values whose mutation would be
unobservable, and any non-empty such iteration fails at
`step['villager_count']` before an assignment is reached.  A missing
`build_order` key only prints a warning and returns, mutating nothing. -/
def evaluate_aoe2_build_order_timing (data : PyVal) (time_offset : Int) :
    Except PyErr PyVal :=
  let villager_time : Int := 25
  match pyContains data (.str "build_order") with
  | .error e => .error e
  | .ok false => .ok data
  | .ok true =>
    match pyGetItem data "build_order" with
    | .error e => .error e
    | .ok build_order_data =>
    match pyIter build_order_data with
    | .error e => .error e
    | .ok items =>
    match eval_timing_steps villager_time time_offset items with
    | .error e => .error e
    | .ok items2 =>
      match build_order_data with
      | .list _ => .ok (py_dict_set data "build_order" (.list items2))
      | _ => .ok data

/-- The first of the four required step fields missing from a step mapping,
in the order the validator tests them (lines 48-58). -/
def first_missing_field (a : List (String × PyVal)) : Option String :=
  if (lookupFirst a "villager_count").isSome = false then some "villager_count"
  else if (lookupFirst a "age").isSome = false then some "age"
  else if (lookupFirst a "resources").isSome = false then some "resources"
  else if (lookupFirst a "notes").isSome = false then some "notes"
  else Option.none

/-- The document's `civilization` field, when present, passes the
civilization check of lines 27-38. -/
def civ_field_ok (kvs : List (String × PyVal)) : Prop :=
  ∀ v, lookupFirst kvs "civilization" = some v → check_civ_value v = .ok Option.none

/-- A recognized civilization entry: a faction name of the table or a
wildcard token. -/
def recognized_civ_entry (c : PyVal) : Bool :=
  match c with
  | .str s => aoe2_civilization_icon.contains s || s == "Any" || s == "any"
  | _ => false

/-- A recognized `civilization` value: a recognized scalar, or a non-empty
list of recognized entries. -/
def recognized_civ : PyVal → Bool
  | .list cs => !cs.isEmpty && cs.all recognized_civ_entry
  | c => recognized_civ_entry c

/-- The binding of `k` exists and holds a valid resource value. -/
def valid_resource_at (rs : List (String × PyVal)) (k : String) : Bool :=
  match lookupFirst rs k with
  | some v => is_valid_resource v
  | Option.none => false

/-- A `resources` record that the checks of lines 71-97 accept: the four
core fields present and valid, `builder` valid when present. -/
def good_resources : PyVal → Bool
  | .dict rs =>
    valid_resource_at rs "wood" && valid_resource_at rs "food" &&
    valid_resource_at rs "gold" && valid_resource_at rs "stone" &&
    (match lookupFirst rs "builder" with
     | some b => is_valid_resource b
     | Option.none => true)
  | _ => false

/-- The value is iterable and every iterated element is a string. -/
def notes_all_strings (v : PyVal) : Bool :=
  match pyIter v with
  | .ok ns => ns.all isinstance_str
  | .error _ => false

/-- A step that every check of lines 47-103 accepts: a mapping with the four
required fields, an integer villager count, an integer age at most 4, a good
resources record, and notes whose elements are all strings. -/
def good_step : PyVal → Bool
  | .dict a =>
    (match lookupFirst a "villager_count" with
     | some v => isinstance_int v
     | Option.none => false) &&
    (match lookupFirst a "age" with
     | some v => isinstance_int v && decide (pyIntOf v ≤ 4)
     | Option.none => false) &&
    (match lookupFirst a "resources" with
     | some r => good_resources r
     | Option.none => false) &&
    (match lookupFirst a "notes" with
     | some nts => notes_all_strings nts
     | Option.none => false)
  | _ => false

/-- Like `good_step`, but with a plain (arbitrary) string as the `notes`
value instead of a sequence of strings. -/
def good_step_string_notes : PyVal → Bool
  | .dict a =>
    (match lookupFirst a "villager_count" with
     | some v => isinstance_int v
     | Option.none => false) &&
    (match lookupFirst a "age" with
     | some v => isinstance_int v && decide (pyIntOf v ≤ 4)
     | Option.none => false) &&
    (match lookupFirst a "resources" with
     | some r => good_resources r
     | Option.none => false) &&
    (match lookupFirst a "notes" with
     | some (.str _) => true
     | _ => false)
  | _ => false

/-- The step's `villager_count` value when it is a plain integer. -/
def step_vc : PyVal → Int
  | .dict a =>
    (match lookupFirst a "villager_count" with
     | some (.int n) => n
     | _ => 0)
  | _ => 0

/-- The step is a mapping whose `villager_count` is a plain integer. -/
def step_has_int_vc : PyVal → Bool
  | .dict a =>
    (match lookupFirst a "villager_count" with
     | some (.int _) => true
     | _ => false)
  | _ => false

/-- What the timing evaluator stores into one step: the `time` field set to
`villager_count * 25 + time_offset` seconds, rendered by
`build_order_time_to_str`. -/
def step_time_update (time_offset : Int) (s : PyVal) : PyVal :=
  py_dict_set s "time" (.str (build_order_time_to_str (25 * step_vc s + time_offset)))

/-- The bindings of a step other than `time`. -/
def erase_time (a : List (String × PyVal)) : List (String × PyVal) :=
  a.filter fun kv => kv.1 != "time"

/-- Two steps agree outside the `time` field. -/
def step_frame (s t : PyVal) : Prop :=
  match s, t with
  | .dict a, .dict b => erase_time a = erase_time b
  | s, t => s = t

/-- Two `build_order` values agree except for the steps' `time` fields. -/
def steps_frame (v w : PyVal) : Prop :=
  match v, w with
  | .list xs, .list ys => List.Forall₂ step_frame xs ys
  | v, w => v = w

/-- Two document bindings agree, except that a `build_order` binding may
differ in its steps' `time` fields. -/
def entry_frame (p q : String × PyVal) : Prop :=
  p.1 = q.1 ∧ (if p.1 = "build_order" then steps_frame p.2 q.2 else p.2 = q.2)

/-- Two documents agree except for the `time` fields of the steps under
`build_order`. -/
def doc_frame (d d2 : PyVal) : Prop :=
  match d, d2 with
  | .dict a, .dict b => List.Forall₂ entry_frame a b
  | d, d2 => d = d2

/-! ### Supporting lemmas -/

theorem check_notes_all_str (ns : List PyVal) (h : ns.all isinstance_str = true) :
    check_notes ns = Option.none := by
  induction ns with
  | nil => rfl
  | cons n rest ih =>
    simp only [List.all_cons, Bool.and_eq_true] at h
    simp [check_notes, h.1, ih h.2]

theorem notes_all_strings_str (s : String) : notes_all_strings (.str s) = true := by
  simp [notes_all_strings, pyIter, List.all_map, isinstance_str]

theorem valid_resource_at_some (rs : List (String × PyVal)) (k : String)
    (h : valid_resource_at rs k = true) :
    ∃ v, lookupFirst rs k = some v ∧ is_valid_resource v = true := by
  unfold valid_resource_at at h
  cases hk : lookupFirst rs k with
  | none => rw [hk] at h; exact absurd h (by simp)
  | some v => rw [hk] at h; exact ⟨v, rfl, h⟩

theorem check_resources_good (r : PyVal) (h : good_resources r = true) :
    check_resources r = .ok Option.none := by
  cases r with
  | dict rs =>
    simp only [good_resources, Bool.and_eq_true] at h
    obtain ⟨⟨⟨⟨hw, hf⟩, hg⟩, hs⟩, hb⟩ := h
    obtain ⟨w, hW, hwv⟩ := valid_resource_at_some rs "wood" hw
    obtain ⟨f, hF, hfv⟩ := valid_resource_at_some rs "food" hf
    obtain ⟨g, hG, hgv⟩ := valid_resource_at_some rs "gold" hg
    obtain ⟨st, hS, hsv⟩ := valid_resource_at_some rs "stone" hs
    cases hB : lookupFirst rs "builder" with
    | none =>
      simp [check_resources, pyContains, pyUnhashable, pyGetItem,
            hW, hF, hG, hS, hB, hwv, hfv, hgv, hsv]
    | some b =>
      rw [hB] at hb
      have hb2 : is_valid_resource b = true := hb
      simp [check_resources, pyContains, pyUnhashable, pyGetItem,
            hW, hF, hG, hS, hB, hwv, hfv, hgv, hsv, hb2]
  | int n => exact absurd h (by simp [good_resources])
  | bool b => exact absurd h (by simp [good_resources])
  | str s => exact absurd h (by simp [good_resources])
  | none => exact absurd h (by simp [good_resources])
  | list xs => exact absurd h (by simp [good_resources])

theorem age_check_fail_of_good (v : PyVal)
    (h1 : isinstance_int v = true) (h2 : pyIntOf v ≤ 4) :
    age_check_fail v = false := by
  simp [age_check_fail, h1]
  omega

theorem check_step_good (item : PyVal) (h : good_step item = true) :
    check_step item = .ok Option.none := by
  cases item with
  | dict a =>
    simp only [good_step, Bool.and_eq_true] at h
    obtain ⟨⟨⟨hvc, hage⟩, hres⟩, hnts⟩ := h
    cases hVC : lookupFirst a "villager_count" with
    | none => rw [hVC] at hvc; exact absurd hvc (by simp)
    | some vc =>
    rw [hVC] at hvc
    have hvc2 : isinstance_int vc = true := hvc
    cases hAge : lookupFirst a "age" with
    | none => rw [hAge] at hage; exact absurd hage (by simp)
    | some age =>
    rw [hAge] at hage
    have hage2 : (isinstance_int age && decide (pyIntOf age ≤ 4)) = true := hage
    simp only [Bool.and_eq_true, decide_eq_true_eq] at hage2
    cases hRes : lookupFirst a "resources" with
    | none => rw [hRes] at hres; exact absurd hres (by simp)
    | some r =>
    rw [hRes] at hres
    have hres2 : good_resources r = true := hres
    cases hNts : lookupFirst a "notes" with
    | none => rw [hNts] at hnts; exact absurd hnts (by simp)
    | some nts =>
    rw [hNts] at hnts
    have hnts2 : notes_all_strings nts = true := hnts
    have hr := check_resources_good r hres2
    have hagef := age_check_fail_of_good age hage2.1 hage2.2
    unfold notes_all_strings at hnts2
    cases hIt : pyIter nts with
    | error e => rw [hIt] at hnts2; exact absurd hnts2 (by simp)
    | ok ns =>
    rw [hIt] at hnts2
    have hcn := check_notes_all_str ns hnts2
    simp [check_step, pyContains, pyUnhashable, pyGetItem,
          hVC, hAge, hRes, hNts, hvc2, hagef, hr, hIt, hcn]
  | int n => exact absurd h (by simp [good_step])
  | bool b => exact absurd h (by simp [good_step])
  | str s => exact absurd h (by simp [good_step])
  | none => exact absurd h (by simp [good_step])
  | list xs => exact absurd h (by simp [good_step])

theorem check_steps_all_pass (items : List PyVal) (pre : String) (idx : Nat)
    (h : ∀ s ∈ items, check_step s = .ok Option.none) :
    check_steps pre idx items = .ok (true, "") := by
  induction items generalizing idx with
  | nil => rfl
  | cons item rest ih =>
    have h1 := h item (by simp)
    simp [check_steps, h1]
    exact ih (idx + 1) fun s hs => h s (by simp [hs])

theorem check_civ_list_recognized (cs : List PyVal)
    (h : cs.all recognized_civ_entry = true) :
    check_civ_list cs = .ok Option.none := by
  induction cs with
  | nil => rfl
  | cons c rest ih =>
    simp only [List.all_cons, Bool.and_eq_true] at h
    obtain ⟨h1, h2⟩ := h
    cases c
    case str s =>
      have ih2 := ih h2
      simp only [recognized_civ_entry, Bool.or_eq_true, beq_iff_eq] at h1
      simp only [check_civ_list, civTableContains, pyUnhashable]
      rcases h1 with (h1 | h1) | h1
      · have h1m : s ∈ aoe2_civilization_icon := by simpa using h1
        simp [wildcard_ok, pyEqb, h1m, ih2]
      · simp [wildcard_ok, pyEqb, h1, ih2]
      · simp [wildcard_ok, pyEqb, h1, ih2]
    all_goals exact absurd h1 (by simp [recognized_civ_entry])

theorem check_civ_value_recognized (v : PyVal) (h : recognized_civ v = true) :
    check_civ_value v = .ok Option.none := by
  cases v
  case list cs =>
    simp only [recognized_civ, Bool.and_eq_true] at h
    have hne : cs.length ≠ 0 := by
      have := h.1
      cases cs <;> simp_all
    simp [check_civ_value, hne, check_civ_list_recognized cs h.2]
  case str s =>
    simp only [recognized_civ, recognized_civ_entry, Bool.or_eq_true, beq_iff_eq] at h
    simp only [check_civ_value, civTableContains, pyUnhashable]
    rcases h with (h | h) | h
    · have hm : s ∈ aoe2_civilization_icon := by simpa using h
      simp [wildcard_ok, pyEqb, hm]
    · simp [wildcard_ok, pyEqb, h]
    · simp [wildcard_ok, pyEqb, h]
  all_goals exact absurd h (by simp [recognized_civ, recognized_civ_entry])

theorem check_valid_good (kvs : List (String × PyVal)) (nm : PyVal)
    (steps : List PyVal) (flag : Bool)
    (h1 : lookupFirst kvs "name" = some nm)
    (h2 : ∀ v, lookupFirst kvs "civilization" = some v → check_civ_value v = .ok Option.none)
    (h3 : lookupFirst kvs "build_order" = some (.list steps))
    (h4 : steps ≠ [])
    (h5 : ∀ s ∈ steps, check_step s = .ok Option.none) :
    check_valid_aoe2_build_order (.dict kvs) flag = (true, "") := by
  have hsteps := check_steps_all_pass steps (if flag then pyStr nm ++ " | " else "") 0 h5
  have hlen : ¬ steps.length < 1 := by
    cases steps with
    | nil => exact absurd rfl h4
    | cons a l => simp
  cases hc : lookupFirst kvs "civilization" with
  | none =>
    simp [check_valid_aoe2_build_order, check_body, check_after_name,
          pyGetItem, pyContains, pyUnhashable, pyLen, pyIter,
          h1, h3, hc, hlen, hsteps]
  | some v =>
    have hv := h2 v hc
    simp [check_valid_aoe2_build_order, check_body, check_after_name,
          pyGetItem, pyContains, pyUnhashable, pyLen, pyIter,
          h1, h3, hc, hv, hlen, hsteps]

/-! ### Claim theorems -/

/-- C1: for every input document (of any shape) and flag,
`check_valid_aoe2_build_order` returns a (Bool, String) pair — the failures
of the try block never escape; a `KeyError` raised while indexing into the
document becomes `Wrong JSON key: <key>.` with the key rendered as Python
renders a `KeyError`, and any other exception becomes a message carrying the
exception's text, in both cases with result `False` and the current name
prefix. -/
theorem check_valid_total_and_converts (data : PyVal) (flag : Bool) :
    (∃ b s, check_valid_aoe2_build_order data flag = (b, s)) ∧
    (∀ pre k, check_body data flag = .error (pre, .keyError k) →
       check_valid_aoe2_build_order data flag =
         (false, pre ++ "Wrong JSON key: \x27" ++ k ++ "\x27.")) ∧
    (∀ pre e, check_body data flag = .error (pre, e) → (∀ k, e ≠ PyErr.keyError k) →
       check_valid_aoe2_build_order data flag = (false, pre ++ pyErrStr e)) := by
  refine ⟨⟨(check_valid_aoe2_build_order data flag).1,
           (check_valid_aoe2_build_order data flag).2, rfl⟩, ?_, ?_⟩
  · intro pre k h
    simp [check_valid_aoe2_build_order, h]
  · intro pre e h hk
    cases e with
    | keyError k => exact absurd rfl (hk k)
    | typeError m => simp [check_valid_aoe2_build_order, h, pyErrStr]
    | assertionError => simp [check_valid_aoe2_build_order, h, pyErrStr]

/-- C1 witness: on the empty mapping, `data['name']` raises
`KeyError('name')` and the validator returns the wrong-key message. -/
theorem check_valid_total_and_converts_witness :
    check_valid_aoe2_build_order (.dict []) false =
      (false, "Wrong JSON key: \x27name\x27.") :=
  (check_valid_total_and_converts (.dict []) false).2.1 "" "name" rfl

/-- C5: the age check of a step passes exactly when the value is a Python
integer (booleans included, as instances of `int`) at most 4; every integer
age at or below 4 — zero and negative values included — passes, so the check
rejects precisely the non-integers and the integers above 4. -/
theorem age_check_characterization (age : PyVal) :
    age_check_fail age = false ↔ (isinstance_int age = true ∧ pyIntOf age ≤ 4) := by
  cases age with
  | int n => simp [age_check_fail, isinstance_int, pyIntOf]
  | bool b => cases b <;> simp [age_check_fail, isinstance_int, pyIntOf]
  | str s => simp [age_check_fail, isinstance_int, pyIntOf]
  | none => simp [age_check_fail, isinstance_int, pyIntOf]
  | list l => simp [age_check_fail, isinstance_int, pyIntOf]
  | dict d => simp [age_check_fail, isinstance_int, pyIntOf]

/-- C2 counterexample: a document whose single step is fully valid but that
lacks a `name` field is not accepted — `data['name']` raises a `KeyError`
which the validator converts into a wrong-key failure, so an absent `name`
is not tolerated. -/
theorem missing_name_rejected_cex :
    check_valid_aoe2_build_order
      (.dict [("build_order", .list [.dict
        [("villager_count", .int 6), ("age", .int 1),
         ("resources", .dict [("wood", .int 0), ("food", .int 0),
                              ("gold", .int 0), ("stone", .int 0)]),
         ("notes", .list [.str "Start"])]])]) false =
      (false, "Wrong JSON key: \x27name\x27.") ∧
    check_valid_aoe2_build_order
      (.dict [("build_order", .list [.dict
        [("villager_count", .int 6), ("age", .int 1),
         ("resources", .dict [("wood", .int 0), ("food", .int 0),
                              ("gold", .int 0), ("stone", .int 0)]),
         ("notes", .list [.str "Start"])]])]) false ≠ (true, "") := by
  constructor
  · rfl
  · decide

/-- C2 (amended: the document must also contain a `name` field, since
`data['name']` is read unconditionally and its absence is a `KeyError`
failure): every document with a name, a recognized `civilization` when
present, and a non-empty `build_order` of steps with integer villager
counts, integer ages at most 4, valid resource records and all-string
notes, is accepted as `(True, \"\")` for either flag value. -/
theorem valid_doc_with_name_accepted (kvs : List (String × PyVal)) (nm : PyVal)
    (steps : List PyVal) (flag : Bool)
    (h1 : lookupFirst kvs "name" = some nm)
    (h2 : ∀ v, lookupFirst kvs "civilization" = some v → recognized_civ v = true)
    (h3 : lookupFirst kvs "build_order" = some (.list steps))
    (h4 : steps ≠ [])
    (h5 : steps.all good_step = true) :
    check_valid_aoe2_build_order (.dict kvs) flag = (true, "") := by
  refine check_valid_good kvs nm steps flag h1
    (fun v hv => check_civ_value_recognized v (h2 v hv)) h3 h4 ?_
  intro s hs
  exact check_step_good s (List.all_eq_true.mp h5 s hs)

/-- C2 witness: a concrete document with a name, a recognized civilization
and one valid step is accepted. -/
theorem valid_doc_with_name_accepted_witness :
    check_valid_aoe2_build_order
      (.dict [("name", .str "bo"), ("civilization", .str "Aztecs"),
              ("build_order", .list [.dict
        [("villager_count", .int 6), ("age", .int 1),
         ("resources", .dict [("wood", .int 0), ("food", .int 0),
                              ("gold", .int 0), ("stone", .int 0)]),
         ("notes", .list [.str "Start"])]])]) false = (true, "") :=
  valid_doc_with_name_accepted _ (.str "bo") _ false rfl
    (fun v hv => (Option.some.inj hv) ▸ (by decide))
    rfl (List.cons_ne_nil _ _) (by decide)

/-- C9: the no-argument step template is the step with zero values for all
four resources, age 1 and two placeholder notes; the document template wraps
one such step with placeholder metadata and the `Generic` civilization, and
it satisfies the validator: `check_valid_aoe2_build_order` accepts it with
`(True, \"\")`. -/
theorem template_satisfies_validator :
    get_aoe2_build_order_step Option.none =
      .ok (.dict [("villager_count", .int 0), ("age", .int 1),
                  ("resources", .dict [("wood", .int 0), ("food", .int 0),
                                       ("gold", .int 0), ("stone", .int 0)]),
                  ("notes", .list [.str "Note 1.", .str "Note 2."])]) ∧
    get_aoe2_build_order_template =
      .ok (.dict [("name", .str "Build order name"),
                  ("civilization", .str "Generic"),
                  ("author", .str "Author"),
                  ("source", .str "Source"),
                  ("build_order", .list [.dict
                    [("villager_count", .int 0), ("age", .int 1),
                     ("resources", .dict [("wood", .int 0), ("food", .int 0),
                                          ("gold", .int 0), ("stone", .int 0)]),
                     ("notes", .list [.str "Note 1.", .str "Note 2."])]])]) ∧
    check_valid_aoe2_build_order
      (.dict [("name", .str "Build order name"),
              ("civilization", .str "Generic"),
              ("author", .str "Author"),
              ("source", .str "Source"),
              ("build_order", .list [.dict
                [("villager_count", .int 0), ("age", .int 1),
                 ("resources", .dict [("wood", .int 0), ("food", .int 0),
                                      ("gold", .int 0), ("stone", .int 0)]),
                 ("notes", .list [.str "Note 1.", .str "Note 2."])]])]) false =
      (true, "") := by
  refine ⟨rfl, rfl, ?_⟩
  decide

/-- C6: every mapping document whose `civilization` field is the empty list
is rejected; and when the checks before the civilization check succeed
(`name` and `build_order` lookups) and the flag is off, the message is
exactly `Valid civilization list is empty.`. -/
theorem empty_civilization_list_rejected (kvs : List (String × PyVal)) (flag : Bool)
    (h : lookupFirst kvs "civilization" = some (.list [])) :
    (check_valid_aoe2_build_order (.dict kvs) flag).1 = false ∧
    (∀ nm bo, lookupFirst kvs "name" = some nm →
       lookupFirst kvs "build_order" = some bo →
       check_valid_aoe2_build_order (.dict kvs) false =
         (false, "Valid civilization list is empty.")) := by
  constructor
  · cases hn : lookupFirst kvs "name" with
    | none => simp [check_valid_aoe2_build_order, check_body, pyGetItem, hn]
    | some nm =>
      cases hb : lookupFirst kvs "build_order" with
      | none =>
        simp [check_valid_aoe2_build_order, check_body, check_after_name,
              pyGetItem, hn, hb]
      | some bo =>
        simp [check_valid_aoe2_build_order, check_body, check_after_name,
              pyGetItem, pyContains, pyUnhashable, check_civ_value,
              hn, hb, h]
  · intro nm bo hn hb
    simp [check_valid_aoe2_build_order, check_body, check_after_name,
          pyGetItem, pyContains, pyUnhashable, check_civ_value,
          hn, hb, h]

/-- C6 witness: a document with name, build order and `civilization: []`. -/
theorem empty_civilization_list_rejected_witness :
    check_valid_aoe2_build_order
      (.dict [("name", .str "bo"), ("civilization", .list []),
              ("build_order", .list [])]) false =
      (false, "Valid civilization list is empty.") :=
  (empty_civilization_list_rejected
     [("name", .str "bo"), ("civilization", .list []), ("build_order", .list [])]
     false rfl).2 (.str "bo") (.list []) rfl rfl

theorem check_valid_steps_result (kvs : List (String × PyVal)) (nm : PyVal)
    (steps : List PyVal) (flag : Bool) (r : Bool × String)
    (h1 : lookupFirst kvs "name" = some nm)
    (h2 : civ_field_ok kvs)
    (h3 : lookupFirst kvs "build_order" = some (.list steps))
    (hlen : ¬ steps.length < 1)
    (hres : check_steps (if flag then pyStr nm ++ " | " else "") 0 steps = .ok r) :
    check_valid_aoe2_build_order (.dict kvs) flag = r := by
  cases hc : lookupFirst kvs "civilization" with
  | none =>
    simp [check_valid_aoe2_build_order, check_body, check_after_name,
          pyGetItem, pyContains, pyUnhashable, pyLen, pyIter,
          h1, h3, hc, hlen, hres]
  | some v =>
    have hv := h2 v hc
    simp [check_valid_aoe2_build_order, check_body, check_after_name,
          pyGetItem, pyContains, pyUnhashable, pyLen, pyIter,
          h1, h3, hc, hv, hlen, hres]

theorem check_step_first_missing (a : List (String × PyVal)) (f : String)
    (h : first_missing_field a = some f) :
    check_step (.dict a) = .ok (some (" is missing the \x27" ++ f ++ "\x27 field.")) := by
  unfold first_missing_field at h
  cases hVC : (lookupFirst a "villager_count").isSome with
  | false =>
    rw [hVC] at h; simp at h
    simp [check_step, pyContains, pyUnhashable, hVC, ← h]
  | true =>
  rw [hVC] at h; simp at h
  cases hAge : (lookupFirst a "age").isSome with
  | false =>
    rw [hAge] at h; simp at h
    simp [check_step, pyContains, pyUnhashable, hVC, hAge, ← h]
  | true =>
  rw [hAge] at h; simp at h
  cases hRes : (lookupFirst a "resources").isSome with
  | false =>
    rw [hRes] at h; simp at h
    simp [check_step, pyContains, pyUnhashable, hVC, hAge, hRes, ← h]
  | true =>
  rw [hRes] at h; simp at h
  obtain ⟨hN, hf⟩ := h
  simp [check_step, pyContains, pyUnhashable, hVC, hAge, hRes, hN, ← hf]

theorem check_steps_fail (steps : List PyVal) (pre : String) (k idx : Nat)
    (it : PyVal) (m : String)
    (hk : steps[k]? = some it)
    (hpass : ∀ j, j < k → ∀ s, steps[j]? = some s → check_step s = .ok Option.none)
    (hit : check_step it = .ok (some m)) :
    check_steps pre idx steps = .ok (false, pre ++ "Step " ++ toString (idx + k) ++ m) := by
  induction steps generalizing k idx with
  | nil => simp at hk
  | cons s rest ih =>
    cases k with
    | zero =>
      have hs : s = it := by simpa using hk
      subst hs
      simp [check_steps, hit]
    | succ k2 =>
      have hs0 : check_step s = .ok Option.none :=
        hpass 0 (Nat.succ_pos k2) s (by simp)
      have hk2 : rest[k2]? = some it := by simpa using hk
      have hpass2 : ∀ j, j < k2 → ∀ s2, rest[j]? = some s2 →
          check_step s2 = .ok Option.none := by
        intro j hj s2 hjs
        exact hpass (j + 1) (Nat.succ_lt_succ hj) s2 (by simpa using hjs)
      have := ih k2 (idx + 1) hk2 hpass2
      rw [show idx + 1 + k2 = idx + (k2 + 1) from by omega] at this
      simp [check_steps, hs0, this]

/-- C3 counterexample: a document whose first step (index 0) is an empty
mapping is reported as `Step 0`, the 0-based index — not `Step 1` as the
1-based claim states. -/
theorem step_index_zero_based_cex :
    check_valid_aoe2_build_order
      (.dict [("name", .str "bo"), ("build_order", .list [.dict []])]) false =
      (false, "Step 0 is missing the \x27villager_count\x27 field.") ∧
    check_valid_aoe2_build_order
      (.dict [("name", .str "bo"), ("build_order", .list [.dict []])]) false ≠
      (false, "Step 1 is missing the \x27villager_count\x27 field.") := by
  constructor
  · rfl
  · decide

/-- C3 (amended: the step is identified by its 0-based `enumerate` index —
step index `k` is reported as `Step k`, not `Step k+1`): when the checks
before the loop pass, every step before index `k` passes, and the step at
index `k` is a mapping missing a required field, the validator fails with a
message naming the first missing field and the 0-based step index. -/
theorem missing_step_field_reports_zero_based
    (kvs : List (String × PyVal)) (nm : PyVal) (steps : List PyVal)
    (k : Nat) (a : List (String × PyVal)) (f : String)
    (h1 : lookupFirst kvs "name" = some nm)
    (h2 : civ_field_ok kvs)
    (h3 : lookupFirst kvs "build_order" = some (.list steps))
    (h4 : ∀ j, j < k → ∀ s, steps[j]? = some s → check_step s = .ok Option.none)
    (h5 : steps[k]? = some (.dict a))
    (h6 : first_missing_field a = some f) :
    check_valid_aoe2_build_order (.dict kvs) false =
      (false, "Step " ++ toString k ++ (" is missing the \x27" ++ f ++ "\x27 field.")) := by
  have hit := check_step_first_missing a f h6
  have hfail := check_steps_fail steps "" k 0 (.dict a)
    (" is missing the \x27" ++ f ++ "\x27 field.") h5 h4 hit
  rw [Nat.zero_add] at hfail
  have hklen : k < steps.length := by
    by_contra hlt
    rw [List.getElem?_eq_none (by omega)] at h5
    simp at h5
  exact check_valid_steps_result kvs nm steps false _ h1 h2 h3 (by omega) hfail

/-- C3 witness: the second step (index 1) of a two-step document lacks
`age`; the message labels it `Step 1`, its 0-based index. -/
theorem missing_step_field_reports_zero_based_witness :
    check_valid_aoe2_build_order
      (.dict [("name", .str "bo"), ("build_order", .list
         [.dict [("villager_count", .int 1), ("age", .int 1),
                 ("resources", .dict [("wood", .int 0), ("food", .int 0),
                                      ("gold", .int 0), ("stone", .int 0)]),
                 ("notes", .list [])],
          .dict [("villager_count", .int 2)]])]) false =
      (false, "Step 1 is missing the \x27age\x27 field.") := by
  have := missing_step_field_reports_zero_based
    [("name", .str "bo"), ("build_order", .list
       [.dict [("villager_count", .int 1), ("age", .int 1),
               ("resources", .dict [("wood", .int 0), ("food", .int 0),
                                    ("gold", .int 0), ("stone", .int 0)]),
               ("notes", .list [])],
        .dict [("villager_count", .int 2)]])]
    (.str "bo")
    [.dict [("villager_count", .int 1), ("age", .int 1),
            ("resources", .dict [("wood", .int 0), ("food", .int 0),
                                 ("gold", .int 0), ("stone", .int 0)]),
            ("notes", .list [])],
     .dict [("villager_count", .int 2)]]
    1 [("villager_count", .int 2)] "age" rfl
    (fun v hv => by simp [lookupFirst] at hv)
    rfl
    (fun j hj s hs => by
      have hj0 : j = 0 := by omega
      subst hj0
      simp at hs
      subst hs
      rfl)
    (by simp) rfl
  simpa using this

/-- C4: with a `name` field, no invalid civilization, and a non-empty build
order whose first step has the `villager_count`, `age` and `resources` keys
but no `notes` key, the validator returns exactly
`(False, "Step 0 is missing the 'notes' field.")` with the flag off. -/
theorem first_step_missing_notes_message
    (kvs : List (String × PyVal)) (nm : PyVal)
    (a : List (String × PyVal)) (rest : List PyVal)
    (h1 : lookupFirst kvs "name" = some nm)
    (h2 : civ_field_ok kvs)
    (h3 : lookupFirst kvs "build_order" = some (.list (PyVal.dict a :: rest)))
    (h4 : (lookupFirst a "villager_count").isSome = true)
    (h5 : (lookupFirst a "age").isSome = true)
    (h6 : (lookupFirst a "resources").isSome = true)
    (h7 : lookupFirst a "notes" = Option.none) :
    check_valid_aoe2_build_order (.dict kvs) false =
      (false, "Step 0 is missing the \x27notes\x27 field.") := by
  have h6m : first_missing_field a = some "notes" := by
    unfold first_missing_field
    simp [h4, h5, h6, h7]
  have := missing_step_field_reports_zero_based kvs nm (PyVal.dict a :: rest) 0 a "notes"
    h1 h2 h3 (fun j hj s hs => absurd hj (Nat.not_lt_zero j)) (by simp) h6m
  simpa using this

/-- C4 witness: a concrete first step with the three keys and no `notes`. -/
theorem first_step_missing_notes_message_witness :
    check_valid_aoe2_build_order
      (.dict [("name", .str "bo"), ("build_order", .list
         [.dict [("villager_count", .int 1), ("age", .int 1),
                 ("resources", .dict [])]])]) false =
      (false, "Step 0 is missing the \x27notes\x27 field.") :=
  first_step_missing_notes_message
    [("name", .str "bo"), ("build_order", .list
       [.dict [("villager_count", .int 1), ("age", .int 1),
               ("resources", .dict [])]])]
    (.str "bo")
    [("villager_count", .int 1), ("age", .int 1), ("resources", .dict [])]
    [] rfl
    (fun v hv => by simp [lookupFirst] at hv)
    rfl rfl rfl rfl rfl

theorem good_step_of_string_notes (item : PyVal)
    (h : good_step_string_notes item = true) : good_step item = true := by
  cases item
  case dict a =>
    simp only [good_step_string_notes, Bool.and_eq_true] at h
    obtain ⟨⟨⟨hvc, hage⟩, hres⟩, hnts⟩ := h
    simp only [good_step, Bool.and_eq_true]
    refine ⟨⟨⟨hvc, hage⟩, hres⟩, ?_⟩
    cases hN : lookupFirst a "notes" with
    | none => rw [hN] at hnts; exact absurd hnts (by simp)
    | some v =>
      rw [hN] at hnts
      cases v
      case str s => exact notes_all_strings_str s
      all_goals exact absurd hnts (by simp)
  all_goals exact absurd h (by simp [good_step_string_notes])

/-- C10: a `notes` value that is itself a plain string passes the notes
check — iterating a Python string yields one-character strings, each an
instance of `str` — so a document otherwise fully valid whose steps carry
arbitrary strings as `notes` validates as `(True, \"\")`. -/
theorem string_notes_accepted (kvs : List (String × PyVal)) (nm : PyVal)
    (steps : List PyVal) (flag : Bool)
    (h1 : lookupFirst kvs "name" = some nm)
    (h2 : ∀ v, lookupFirst kvs "civilization" = some v → recognized_civ v = true)
    (h3 : lookupFirst kvs "build_order" = some (.list steps))
    (h4 : steps ≠ [])
    (h5 : steps.all good_step_string_notes = true) :
    check_valid_aoe2_build_order (.dict kvs) flag = (true, "") ∧
    (∀ s ns, pyIter (.str s) = .ok ns → check_notes ns = Option.none) := by
  constructor
  · refine valid_doc_with_name_accepted kvs nm steps flag h1 h2 h3 h4 ?_
    rw [List.all_eq_true] at h5 ⊢
    exact fun s hs => good_step_of_string_notes s (h5 s hs)
  · intro s ns hns
    have hns2 : ns = s.data.map fun c => PyVal.str (String.mk [c]) :=
      (Except.ok.inj hns).symm
    subst hns2
    apply check_notes_all_str
    simp [List.all_map, isinstance_str]

/-- C10 witness: a document whose only step has the plain string
`"just one note"` as its `notes` value is accepted. -/
theorem string_notes_accepted_witness :
    check_valid_aoe2_build_order
      (.dict [("name", .str "bo"), ("build_order", .list [.dict
        [("villager_count", .int 6), ("age", .int 1),
         ("resources", .dict [("wood", .int 0), ("food", .int 0),
                              ("gold", .int 0), ("stone", .int 0)]),
         ("notes", .str "just one note")]])]) false = (true, "") :=
  (string_notes_accepted
    [("name", .str "bo"), ("build_order", .list [.dict
      [("villager_count", .int 6), ("age", .int 1),
       ("resources", .dict [("wood", .int 0), ("food", .int 0),
                            ("gold", .int 0), ("stone", .int 0)]),
       ("notes", .str "just one note")]])]
    (.str "bo")
    [.dict [("villager_count", .int 6), ("age", .int 1),
            ("resources", .dict [("wood", .int 0), ("food", .int 0),
                                 ("gold", .int 0), ("stone", .int 0)]),
            ("notes", .str "just one note")]]
    false rfl
    (fun v hv => by simp [lookupFirst] at hv)
    rfl (List.cons_ne_nil _ _) (by decide)).1

theorem eval_timing_steps_map (steps : List PyVal) (off : Int)
    (h : steps.all step_has_int_vc = true) :
    eval_timing_steps 25 off steps = .ok (steps.map (step_time_update off)) := by
  induction steps with
  | nil => rfl
  | cons s rest ih =>
    simp only [List.all_cons, Bool.and_eq_true] at h
    obtain ⟨h1, h2⟩ := h
    cases s
    case dict a =>
      cases hvc : lookupFirst a "villager_count" with
      | none =>
        rw [step_has_int_vc, hvc] at h1
        exact absurd h1 (by simp)
      | some v =>
        rw [step_has_int_vc, hvc] at h1
        cases v
        case int n =>
          simp [eval_timing_steps, pyGetItem, hvc, py_time_value, py_set_item,
                step_time_update, py_dict_set, step_vc, ih h2]
        all_goals exact absurd h1 (by simp)
    all_goals exact absurd h1 (by simp [step_has_int_vc])

/-- C7: on a document whose `build_order` is a list of steps carrying plain
integer `villager_count` values, the timing evaluator sets each step's
`time` field — independently per step — to `villager_count * 25 +
time_offset` seconds rendered as zero-padded minutes:seconds, leaving the
rest of the document as is. -/
theorem timing_evaluation_formula (kvs : List (String × PyVal))
    (steps : List PyVal) (off : Int)
    (h1 : lookupFirst kvs "build_order" = some (.list steps))
    (h2 : steps.all step_has_int_vc = true) :
    evaluate_aoe2_build_order_timing (.dict kvs) off =
      .ok (.dict (dict_set kvs "build_order"
        (.list (steps.map (step_time_update off))))) := by
  have hm := eval_timing_steps_map steps off h2
  simp [evaluate_aoe2_build_order_timing, pyContains, pyUnhashable,
        pyGetItem, pyIter, h1, hm, py_dict_set]

/-- C7 witness: villager counts 0 and 4 with offset 0 give times `0:00`
and `1:40`; villager count 1 with offset 30 gives `0:55`. -/
theorem timing_evaluation_formula_witness :
    evaluate_aoe2_build_order_timing
      (.dict [("build_order", .list [.dict [("villager_count", .int 0)],
                                     .dict [("villager_count", .int 4)]])]) 0 =
      .ok (.dict [("build_order", .list
        [.dict [("villager_count", .int 0), ("time", .str "0:00")],
         .dict [("villager_count", .int 4), ("time", .str "1:40")]])]) ∧
    evaluate_aoe2_build_order_timing
      (.dict [("build_order", .list [.dict [("villager_count", .int 1)]])]) 30 =
      .ok (.dict [("build_order", .list
        [.dict [("villager_count", .int 1), ("time", .str "0:55")]])]) :=
  ⟨timing_evaluation_formula
     [("build_order", .list [.dict [("villager_count", .int 0)],
                             .dict [("villager_count", .int 4)]])]
     [.dict [("villager_count", .int 0)], .dict [("villager_count", .int 4)]]
     0 rfl (by decide),
   timing_evaluation_formula
     [("build_order", .list [.dict [("villager_count", .int 1)]])]
     [.dict [("villager_count", .int 1)]]
     30 rfl (by decide)⟩

theorem erase_time_dict_set (a : List (String × PyVal)) (v : PyVal) :
    erase_time (dict_set a "time" v) = erase_time a := by
  induction a with
  | nil => simp [dict_set, erase_time]
  | cons kv rest ih =>
    obtain ⟨k, w⟩ := kv
    by_cases hk : k = "time"
    · subst hk
      simp [dict_set, erase_time]
    · rw [dict_set, if_neg hk]
      unfold erase_time at ih ⊢
      simp [List.filter_cons, hk, ih]

theorem step_frame_refl (s : PyVal) : step_frame s s := by
  cases s <;> simp [step_frame]

theorem steps_frame_refl (v : PyVal) : steps_frame v v := by
  cases v <;> simp [steps_frame]
  case list xs => exact fun x _ => step_frame_refl x

theorem entry_frame_refl (p : String × PyVal) : entry_frame p p := by
  refine ⟨rfl, ?_⟩
  by_cases hp : p.1 = "build_order"
  · simp [hp, steps_frame_refl]
  · simp [hp]

theorem doc_frame_refl (d : PyVal) : doc_frame d d := by
  cases d <;> simp [doc_frame]
  case dict kvs => exact fun a b _ => entry_frame_refl (a, b)

theorem py_set_item_time_frame (s x step2 : PyVal)
    (h : py_set_item s "time" x = .ok step2) : step_frame s step2 := by
  cases s <;> simp [py_set_item] at h
  case dict a =>
    subst h
    simp [step_frame, erase_time_dict_set]

theorem eval_steps_frame (xs : List PyVal) (ys : List PyVal) (vt off : Int)
    (h : eval_timing_steps vt off xs = .ok ys) :
    List.Forall₂ step_frame xs ys := by
  induction xs generalizing ys with
  | nil =>
    have : ys = [] := by simpa [eval_timing_steps] using h.symm
    subst this
    exact List.Forall₂.nil
  | cons s rest ih =>
    unfold eval_timing_steps at h
    split at h
    · exact absurd h (by simp)
    · rename_i vc hg
      split at h
      · exact absurd h (by simp)
      · rename_i t ht
        split at h
        · exact absurd h (by simp)
        · rename_i step2 hs2
          split at h
          · exact absurd h (by simp)
          · rename_i rest2 hr
            have hy : step2 :: rest2 = ys := by simpa using h
            subst hy
            exact List.Forall₂.cons (py_set_item_time_frame s _ step2 hs2)
              (ih rest2 hr)

theorem forall₂_entry_dict_set (kvs : List (String × PyVal))
    (xs ys : List PyVal)
    (hlk : lookupFirst kvs "build_order" = some (.list xs))
    (hfa : List.Forall₂ step_frame xs ys) :
    List.Forall₂ entry_frame kvs (dict_set kvs "build_order" (.list ys)) := by
  induction kvs with
  | nil => simp [lookupFirst] at hlk
  | cons kv rest ih =>
    obtain ⟨k, v⟩ := kv
    by_cases hk : k = "build_order"
    · subst hk
      rw [lookupFirst, if_pos rfl] at hlk
      have hv : v = .list xs := by simpa using hlk
      subst hv
      rw [dict_set, if_pos rfl]
      refine List.Forall₂.cons ⟨rfl, ?_⟩
        (List.forall₂_same.mpr fun p _ => entry_frame_refl p)
      simp [steps_frame, hfa]
    · rw [lookupFirst, if_neg hk] at hlk
      rw [dict_set, if_neg hk]
      exact List.Forall₂.cons (entry_frame_refl (k, v)) (ih hlk)

/-- C8: the timing evaluator mutates only the `time` field of the steps
inside `build_order` — every other field of every step and every other
field of the document survive a successful call unchanged — and when the
`build_order` key is absent from the mapping, the call returns the document
untouched (Python only prints a warning). -/
theorem timing_frame_property :
    (∀ data off d2, evaluate_aoe2_build_order_timing data off = .ok d2 →
       doc_frame data d2) ∧
    (∀ kvs off, lookupFirst kvs "build_order" = Option.none →
       evaluate_aoe2_build_order_timing (.dict kvs) off = .ok (.dict kvs)) := by
  constructor
  · intro data off d2 h
    unfold evaluate_aoe2_build_order_timing at h
    cases data with
    | dict kvs =>
      cases hlk : lookupFirst kvs "build_order" with
      | none =>
        simp [pyContains, pyUnhashable, hlk] at h
        rw [← h]
        exact doc_frame_refl _
      | some bo =>
        simp only [pyContains, pyUnhashable, pyGetItem, hlk, Option.isSome_some,
                   Bool.false_eq_true, if_false] at h
        cases bo with
        | list xs =>
          simp only [pyIter] at h
          cases he : eval_timing_steps 25 off xs with
          | error e => rw [he] at h; exact absurd h (by simp)
          | ok ys =>
            rw [he] at h
            simp only [py_dict_set] at h
            obtain rfl := Except.ok.inj h
            simp only [doc_frame]
            exact forall₂_entry_dict_set kvs xs ys hlk
              (eval_steps_frame xs ys 25 off he)
        | str s =>
          simp only [pyIter] at h
          cases hd : s.data with
          | nil =>
            rw [hd] at h
            simp only [List.map_nil, eval_timing_steps] at h
            obtain rfl := Except.ok.inj h
            exact doc_frame_refl _
          | cons c cs =>
            rw [hd] at h
            simp [eval_timing_steps, pyGetItem] at h
        | dict ds =>
          simp only [pyIter] at h
          cases ds with
          | nil =>
            simp only [List.map_nil, eval_timing_steps] at h
            obtain rfl := Except.ok.inj h
            exact doc_frame_refl _
          | cons kv rest =>
            simp [eval_timing_steps, pyGetItem] at h
        | int n => simp [pyIter] at h
        | bool b => simp [pyIter] at h
        | none => simp [pyIter] at h
    | list ys =>
      cases hq : ys.any (fun y => pyEqb (.str "build_order") y) with
      | false =>
        simp [pyContains, hq] at h
        rw [← h]
        exact doc_frame_refl _
      | true =>
        simp [pyContains, hq, pyGetItem] at h
    | str s =>
      cases hq : charsContain s.data "build_order".data with
      | false =>
        simp [pyContains, hq] at h
        rw [← h]
        exact doc_frame_refl _
      | true =>
        simp [pyContains, hq, pyGetItem] at h
    | int n => simp [pyContains] at h
    | bool b => simp [pyContains] at h
    | none => simp [pyContains] at h
  · intro kvs off hlk
    simp [evaluate_aoe2_build_order_timing, pyContains, pyUnhashable, hlk]

/-- C8 witness: a mapping without `build_order` is returned unchanged. -/
theorem timing_frame_property_witness :
    evaluate_aoe2_build_order_timing (.dict [("name", .str "x")]) 5 =
      .ok (.dict [("name", .str "x")]) :=
  timing_frame_property.2 [("name", .str "x")] 5 rfl
